import Mathlib

/-!
Verification of the response-normalizing core of `solana_utils.py`
(solana-wallet-bot).

The normalizer receives loosely-typed Python values from an upstream RPC
client and probes them for several possible shapes.  We embed the Python
values that can flow through the normalizer as the inductive `PyVal`:
attribute-bearing objects (`pobj`), mappings (`pdict`), lists, strings,
integers, booleans and `None`.  Python floats never appear as inputs to the
probing logic modelled here; the one float-producing operation (division by
1e9 in `get_balance`) is modelled exactly over `Rat` — no claim below
depends on binary floating-point rounding, only on which value is divided.

External effects (the RPC network calls, pubkey parsing, keypair
generation, transaction confirmation) happen outside the normalizing core;
each is passed in as an `Except PyErr _` input describing its outcome, so
that the try/except wrappers of the source can be modelled faithfully.
Printing to stderr is a no-op for the values computed and is omitted.
-/

/-- Kind of a Python exception raised inside or around the normalizer. -/
inductive ErrKind where
  | typeError
  | valueError
  | keyError
  | attrError
  | externalError
deriving DecidableEq

/-- A Python exception: its kind plus the text `str(e)` would produce. -/
structure PyErr where
  kind : ErrKind
  msg : String
deriving DecidableEq

/-- Embedding of the Python values the normalizer can encounter. -/
inductive PyVal where
  | pnone
  | pint (n : Int)
  | pstr (s : String)
  | pbool (b : Bool)
  | plist (xs : List PyVal)
  | pdict (entries : List (String × PyVal))
  | pobj (attrs : List (String × PyVal))

/-- Association-list lookup used for both dict keys and object attributes. -/
def lookupStr : List (String × PyVal) → String → Option PyVal
  | [], _ => Option.none
  | (k, v) :: rest, key => if k = key then some v else lookupStr rest key

/-- Python `getattr(v, name)` when it succeeds: only plain objects carry the
attributes the source probes for (`value`, `slot`, `meta`, ...). -/
def getattrOpt (v : PyVal) (name : String) : Option PyVal :=
  match v with
  | PyVal.pobj attrs => lookupStr attrs name
  | _ => Option.none

/-- Python `hasattr(v, name)` for the attribute names the source probes. -/
def hasattr (v : PyVal) (name : String) : Bool :=
  (getattrOpt v name).isSome

/-- Python `getattr(v, name, None)`. -/
def getattrD (v : PyVal) (name : String) : PyVal :=
  match getattrOpt v name with
  | some x => x
  | Option.none => PyVal.pnone

/-- Python `getattr(v, name)` without a default: raises `AttributeError`
when the attribute is absent. -/
def getattrE (v : PyVal) (name : String) : Except PyErr PyVal :=
  match getattrOpt v name with
  | some x => Except.ok x
  | Option.none => Except.error ⟨ErrKind.attrError, name⟩

/-- Does the value support `__getitem__` (dicts, lists, strings)? -/
def hasGetitem : PyVal → Bool
  | PyVal.pdict _ => true
  | PyVal.plist _ => true
  | PyVal.pstr _ => true
  | _ => false

/-- Is the value a Python `dict`? -/
def isDict : PyVal → Bool
  | PyVal.pdict _ => true
  | _ => false

/-- Python `v[key]` with a string key: dict lookup (raising `KeyError` when
absent) or a `TypeError` on every other value. -/
def getitem (v : PyVal) (key : String) : Except PyErr PyVal :=
  match v with
  | PyVal.pdict entries =>
    match lookupStr entries key with
    | some x => Except.ok x
    | Option.none => Except.error ⟨ErrKind.keyError, key⟩
  | _ => Except.error ⟨ErrKind.typeError, "unsubscriptable"⟩

/-- Python `d.get(key)`: the stored value, or `None` when absent.  Only
applied to dicts in the source. -/
def dictGet (v : PyVal) (key : String) : PyVal :=
  match v with
  | PyVal.pdict entries =>
    match lookupStr entries key with
    | some x => x
    | Option.none => PyVal.pnone
  | _ => PyVal.pnone

/-- Python truthiness of the embedded values. -/
def truthy : PyVal → Bool
  | PyVal.pnone => false
  | PyVal.pint n => n != 0
  | PyVal.pstr s => s ≠ ""
  | PyVal.pbool b => b
  | PyVal.plist xs => !xs.isEmpty
  | PyVal.pdict es => !es.isEmpty
  | PyVal.pobj _ => true

/-- Python `a or b` on values: `a` when truthy, otherwise `b`. -/
def pyOr (a b : PyVal) : PyVal :=
  if truthy a then a else b

/-- Python `v is None`. -/
def isNone : PyVal → Bool
  | PyVal.pnone => true
  | _ => false

/-- Python `list(v)`: copies a list, splits a string into characters,
lists a dict's keys, raises `TypeError` otherwise. -/
def pyList : PyVal → Except PyErr PyVal
  | PyVal.plist xs => Except.ok (PyVal.plist xs)
  | PyVal.pstr s => Except.ok (PyVal.plist (s.data.map fun c => PyVal.pstr c.toString))
  | PyVal.pdict es => Except.ok (PyVal.plist (es.map fun e => PyVal.pstr e.1))
  | _ => Except.error ⟨ErrKind.typeError, "not iterable"⟩

/-!
## get_balance (solana_utils.py lines 18-49)

The lamport-probing logic: a direct `value` attribute first, then — when
the response supports `__getitem__` — the nested `resp["result"]["value"]`
path with every failure collapsed to `None`.
-/

/-- The two-probe lamport extraction of `get_balance` (lines 29-38). -/
def extractLamports (resp : PyVal) : PyVal :=
  if hasattr resp "value" then getattrD resp "value"
  else if hasGetitem resp then
    match (getitem resp "result").bind (fun r => getitem r "value") with
    | Except.ok v => v
    | Except.error _ => PyVal.pnone
  else PyVal.pnone

/-- Python `lamports / 1_000_000_000` (line 43): integer and boolean
operands divide; every other operand raises `TypeError`.  Modelled exactly
over `Rat`. -/
def pyDivLamports : PyVal → Except PyErr Rat
  | PyVal.pint n => Except.ok ((n : Rat) / 1000000000)
  | PyVal.pbool b => Except.ok ((if b then 1 else 0) / 1000000000)
  | _ => Except.error ⟨ErrKind.typeError, "unsupported operand"⟩

/-- Body of the `try:` block of `get_balance`.  `rpc` is the outcome of
`_to_pubkey` plus `client.get_balance` (external). -/
def get_balance_body (rpc : Except PyErr PyVal) : Except PyErr Rat :=
  match rpc with
  | Except.error e => Except.error e
  | Except.ok resp =>
    let lamports := extractLamports resp
    if isNone lamports then
      Except.error ⟨ErrKind.valueError, "unexpected response from get_balance"⟩
    else
      pyDivLamports lamports

/-- Function `get_balance`: the body with its catch-all `except` that returns
`None` (lines 45-49).  The result is always `Except.ok`. -/
def get_balance (rpc : Except PyErr PyVal) : Except PyErr (Option Rat) :=
  match get_balance_body rpc with
  | Except.ok sol => Except.ok (some sol)
  | Except.error _ => Except.ok Option.none

/-!
## request_airdrop (solana_utils.py lines 52-85)
-/

/-- Canonical airdrop result record. -/
structure AirdropResult where
  success : Bool
  signature : PyVal
  message : String

/-- Signature extraction of `request_airdrop` (lines 66-70): a `value`
attribute, else for dicts `resp.get("result") or resp.get("signature")`. -/
def extractAirdropSig (resp : PyVal) : PyVal :=
  if hasattr resp "value" then getattrD resp "value"
  else if isDict resp then pyOr (dictGet resp "result") (dictGet resp "signature")
  else PyVal.pnone

/-- Body of the `try:` block of `request_airdrop`.  `rpc` is the outcome of
pubkey conversion plus `client.request_airdrop`; `confirm` is the external
`client.confirm_transaction`, whose outcome — success or exception — is
swallowed by the inner `try/except: pass` (lines 73-78). -/
def request_airdrop_body (rpc : Except PyErr PyVal)
    (confirm : PyVal → Except PyErr Unit) : Except PyErr AirdropResult :=
  match rpc with
  | Except.error e => Except.error e
  | Except.ok resp =>
    let signature := extractAirdropSig resp
    let _ := if truthy signature then confirm signature else Except.ok ()
    Except.ok ⟨true, signature, "Airdrop requested."⟩

/-- Function `request_airdrop`: the body with its catch-all `except` that returns
the failure record (lines 81-85). -/
def request_airdrop (rpc : Except PyErr PyVal)
    (confirm : PyVal → Except PyErr Unit) : Except PyErr AirdropResult :=
  match request_airdrop_body rpc confirm with
  | Except.ok r => Except.ok r
  | Except.error e => Except.ok ⟨false, PyVal.pnone, e.msg⟩

/-!
## get_transaction (solana_utils.py lines 114-179)
-/

/-- Canonical transaction record (the dict built at lines 167-174); each
field holds the probed `PyVal`, with `pnone` for Python `None`. -/
structure TxRecord where
  slot : PyVal
  signatures : PyVal
  err : PyVal
  fee : PyVal
  preBalances : PyVal
  postBalances : PyVal

/-- Envelope resolution of `get_transaction` (lines 123-127): a `value`
attribute, else for dicts `resp.get("result") or resp.get("value")`. -/
def resolveEnvelope (resp : PyVal) : PyVal :=
  if hasattr resp "value" then getattrD resp "value"
  else if isDict resp then pyOr (dictGet resp "result") (dictGet resp "value")
  else PyVal.pnone

/-- Sub-structure probe used for `slot`, `meta` and `transaction`
(lines 133-137): dict key lookup, else `getattr(value, k, None)`. -/
def subField (value : PyVal) (k : String) : PyVal :=
  if isDict value then dictGet value k else getattrD value k

/-- Signature extraction from the `transaction` sub-structure
(lines 142-148): for dicts `transaction.get("signatures") or []`;
otherwise `list(transaction.signatures)` with failures collapsed to
`None`. -/
def txSigs (tx : PyVal) : PyVal :=
  if isDict tx then pyOr (dictGet tx "signatures") (PyVal.plist [])
  else
    match (getattrE tx "signatures").bind pyList with
    | Except.ok l => l
    | Except.error _ => PyVal.pnone

/-- Probe for `meta.err` (lines 157, 162). -/
def metaErr (m : PyVal) : PyVal :=
  if isDict m then dictGet m "err" else getattrD m "err"

/-- Probe for `meta.fee` (lines 158, 163). -/
def metaFee (m : PyVal) : PyVal :=
  if isDict m then dictGet m "fee" else getattrD m "fee"

/-- Pre-balance probe (lines 159, 164): dicts are consulted only for the
key `"preBalances"`; attribute objects for `pre_balances` then
`preBalances`, joined by Python `or`. -/
def metaPre (m : PyVal) : PyVal :=
  if isDict m then dictGet m "preBalances"
  else pyOr (getattrD m "pre_balances") (getattrD m "preBalances")

/-- Post-balance probe (lines 160, 165): dicts are consulted only for the
key `"postBalances"`; attribute objects for `post_balances` then
`postBalances`, joined by Python `or`. -/
def metaPost (m : PyVal) : PyVal :=
  if isDict m then dictGet m "postBalances"
  else pyOr (getattrD m "post_balances") (getattrD m "postBalances")

/-- Body of the `try:` block of `get_transaction`. -/
def get_transaction_body (rpc : Except PyErr PyVal) :
    Except PyErr (Option TxRecord) :=
  match rpc with
  | Except.error e => Except.error e
  | Except.ok resp =>
    let value := resolveEnvelope resp
    if truthy value = false then
      Except.ok Option.none
    else
      let slot := subField value "slot"
      let meta := subField value "meta"
      let tx := subField value "transaction"
      let sigs := if isNone tx then PyVal.pnone else txSigs tx
      let err := if isNone meta then PyVal.pnone else metaErr meta
      let fee := if isNone meta then PyVal.pnone else metaFee meta
      let preB := if isNone meta then PyVal.pnone else metaPre meta
      let postB := if isNone meta then PyVal.pnone else metaPost meta
      Except.ok (some ⟨slot, sigs, err, fee, preB, postB⟩)

/-- Function `get_transaction`: the body with its catch-all `except` that returns
`None` (lines 175-179). -/
def get_transaction (rpc : Except PyErr PyVal) : Except PyErr (Option TxRecord) :=
  match get_transaction_body rpc with
  | Except.ok v => Except.ok v
  | Except.error _ => Except.ok Option.none

/-!
## generate_wallet (solana_utils.py lines 182-204)

The encoding step uses Python's `base64.b64encode` (RFC 4648 standard
alphabet with padding) and `bytes.hex()` (lowercase).  Both are embedded
below over `List Nat` byte strings (each byte `< 256`).
-/

/-- The RFC 4648 base64 alphabet, as used by `base64.b64encode`. -/
def b64Alphabet : List Char :=
  "ABCDEFGHIJKLMNOPQRSTUVWXYZabcdefghijklmnopqrstuvwxyz0123456789+/".data

/-- The base64 digit character for a sextet value. -/
def b64Char (n : Nat) : Char :=
  b64Alphabet.getD n 'A'

/-- Index of a character in a character list, if present. -/
def charIdx : List Char → Char → Option Nat
  | [], _ => Option.none
  | a :: rest, c => if a = c then some 0 else (charIdx rest c).map (· + 1)

/-- The sextet value of a base64 digit character, if valid. -/
def b64Index (c : Char) : Option Nat :=
  charIdx b64Alphabet c

/-- Python `base64.b64encode`: three bytes become four digits; a one- or two-byte
tail is padded with `=`. -/
def b64Encode : List Nat → List Char
  | b1 :: b2 :: b3 :: rest =>
    b64Char (b1 / 4) :: b64Char (b1 % 4 * 16 + b2 / 16) ::
      b64Char (b2 % 16 * 4 + b3 / 64) :: b64Char (b3 % 64) :: b64Encode rest
  | [b1, b2] => [b64Char (b1 / 4), b64Char (b1 % 4 * 16 + b2 / 16), b64Char (b2 % 16 * 4), '=']
  | [b1] => [b64Char (b1 / 4), b64Char (b1 % 4 * 16), '=', '=']
  | [] => []

/-- Python `base64.b64decode` on a padded base64 text: four digits at a time,
honouring `=` padding at the end only; `Option.none` on invalid input. -/
def b64Decode : List Char → Option (List Nat)
  | [] => some []
  | c1 :: c2 :: c3 :: c4 :: rest =>
    if c3 = '=' then
      if c4 = '=' ∧ rest = [] then do
        let i1 ← b64Index c1
        let i2 ← b64Index c2
        pure [i1 * 4 + i2 / 16]
      else Option.none
    else if c4 = '=' then
      if rest = [] then do
        let i1 ← b64Index c1
        let i2 ← b64Index c2
        let i3 ← b64Index c3
        pure [i1 * 4 + i2 / 16, i2 % 16 * 16 + i3 / 4]
      else Option.none
    else do
      let i1 ← b64Index c1
      let i2 ← b64Index c2
      let i3 ← b64Index c3
      let i4 ← b64Index c4
      let r ← b64Decode rest
      pure ((i1 * 4 + i2 / 16) :: (i2 % 16 * 16 + i3 / 4) :: (i3 % 4 * 64 + i4) :: r)
  | _ => Option.none

/-- Lowercase hexadecimal digits, as produced by `bytes.hex()`. -/
def hexDigit (n : Nat) : Char :=
  "0123456789abcdef".data.getD n '0'

/-- The value of a lowercase hexadecimal digit, if valid. -/
def hexVal (c : Char) : Option Nat :=
  charIdx "0123456789abcdef".data c

/-- Python `bytes.hex()`: two lowercase digits per byte. -/
def hexEncode : List Nat → List Char
  | [] => []
  | b :: rest => hexDigit (b / 16) :: hexDigit (b % 16) :: hexEncode rest

/-- Python `bytes.fromhex` restricted to lowercase digits: two digits per byte. -/
def hexDecode : List Char → Option (List Nat)
  | [] => some []
  | c1 :: c2 :: rest => do
    let h ← hexVal c1
    let l ← hexVal c2
    let r ← hexDecode rest
    pure ((h * 16 + l) :: r)
  | _ => Option.none

/-- The base58 alphabet used for addresses. -/
def b58Alphabet : List Char :=
  "123456789ABCDEFGHJKLMNPQRSTUVWXYZabcdefghijkmnopqrstuvwxyz".data

/-- Big-endian interpretation of a byte string as a natural number. -/
def bytesToNat (bs : List Nat) : Nat :=
  bs.foldl (fun a b => a * 256 + b % 256) 0

/-- Base58 digits of a natural number (most significant first). -/
def natToB58 (n : Nat) : List Char :=
  match n with
  | 0 => []
  | m + 1 => natToB58 ((m + 1) / 58) ++ [b58Alphabet.getD ((m + 1) % 58) '1']
decreasing_by exact Nat.div_lt_self (Nat.succ_pos m) (by decide)

/-- Base58Check-free base58 encoding of a byte string: one `'1'` per
leading zero byte, then the base58 digits of the big-endian value. -/
def base58Encode (bs : List Nat) : String :=
  String.mk (List.replicate (bs.takeWhile (· = 0)).length '1' ++ natToB58 (bytesToNat bs))

/-- Canonical wallet record: the dict built at line 199 of the source. -/
structure CanonicalWallet where
  address : String
  secret_b64 : String
  secret_hex : String

/-- Wallet normalization failure kinds. -/
inductive WalletErr where
  | invalidLength
deriving DecidableEq

/-- Modelled from the spec: `normalizeWallet` (the keypair handling that
the source delegates to the external `solders.Keypair` — its 64-byte
secret-plus-public-key layout and the base58 address derivation are not in
this repository).  Input is exactly 64 bytes; the address is the base58
encoding of the trailing 32 bytes; the full buffer is exposed base64- and
hex-encoded; any other length fails with `InvalidLength`. -/
def normalizeWallet (kb : List Nat) : Except WalletErr CanonicalWallet :=
  if kb.length = 64 then
    Except.ok ⟨base58Encode (kb.drop 32), String.mk (b64Encode kb), String.mk (hexEncode kb)⟩
  else
    Except.error WalletErr.invalidLength

/-- Body of the `try:` block of `generate_wallet`: `kpgen` is the outcome
of the external `Keypair()` construction, delivering the base58 address
`str(kp.pubkey())` and the 64 raw bytes `kp.to_bytes()`; the base64 and
hex encodings (lines 197-198) are computed here. -/
def generate_wallet_body (kpgen : Except PyErr (String × List Nat)) :
    Except PyErr CanonicalWallet :=
  match kpgen with
  | Except.error e => Except.error e
  | Except.ok (addr, kb) =>
    Except.ok ⟨addr, String.mk (b64Encode kb), String.mk (hexEncode kb)⟩

/-- Function `generate_wallet`: the body with its catch-all `except` that returns
`None` (lines 200-204). -/
def generate_wallet (kpgen : Except PyErr (String × List Nat)) :
    Except PyErr (Option CanonicalWallet) :=
  match generate_wallet_body kpgen with
  | Except.ok w => Except.ok (some w)
  | Except.error _ => Except.ok Option.none

theorem b64Index_b64Char : ∀ i < 64, b64Index (b64Char i) = some i := by decide

theorem b64Char_ne_pad : ∀ i < 64, b64Char i ≠ '=' := by decide

theorem hexVal_hexDigit : ∀ i < 16, hexVal (hexDigit i) = some i := by decide

theorem hexDecode_hexEncode (bs : List Nat) (h : ∀ b ∈ bs, b < 256) :
    hexDecode (hexEncode bs) = some bs := by
  induction bs with
  | nil => rfl
  | cons b rest ih =>
    have hb : b < 256 := h b (List.mem_cons_self _ _)
    have ih2 := ih (fun x hx => h x (List.mem_cons_of_mem _ hx))
    simp only [hexEncode, hexDecode]
    rw [hexVal_hexDigit _ (by omega), hexVal_hexDigit _ (by omega), ih2]
    have hd : b / 16 * 16 + b % 16 = b := by omega
    simp [hd]

theorem b64Decode_b64Encode (bs : List Nat) (h : ∀ b ∈ bs, b < 256) :
    b64Decode (b64Encode bs) = some bs := by
  induction bs using b64Encode.induct with
  | case1 b1 b2 b3 rest ih =>
    have hb1 : b1 < 256 := h b1 (by simp)
    have hb2 : b2 < 256 := h b2 (by simp)
    have hb3 : b3 < 256 := h b3 (by simp)
    have ih2 := ih (fun x hx => h x (by simp [hx]))
    simp only [b64Encode, b64Decode]
    rw [if_neg (b64Char_ne_pad _ (by omega)), if_neg (b64Char_ne_pad _ (by omega))]
    rw [b64Index_b64Char _ (by omega), b64Index_b64Char _ (by omega),
        b64Index_b64Char _ (by omega), b64Index_b64Char _ (by omega), ih2]
    have e1 : b1 / 4 * 4 + (b1 % 4 * 16 + b2 / 16) / 16 = b1 := by omega
    have e2 : (b1 % 4 * 16 + b2 / 16) % 16 * 16 + (b2 % 16 * 4 + b3 / 64) / 4 = b2 := by omega
    have e3 : (b2 % 16 * 4 + b3 / 64) % 4 * 64 + b3 % 64 = b3 := by omega
    simp [e1, e2, e3]
  | case2 b1 b2 =>
    have hb1 : b1 < 256 := h b1 (by simp)
    have hb2 : b2 < 256 := h b2 (by simp)
    simp only [b64Encode, b64Decode]
    rw [if_neg (b64Char_ne_pad _ (by omega))]
    simp only [if_true]
    rw [b64Index_b64Char _ (by omega), b64Index_b64Char _ (by omega),
        b64Index_b64Char _ (by omega)]
    have e1 : b1 / 4 * 4 + (b1 % 4 * 16 + b2 / 16) / 16 = b1 := by omega
    have e2 : (b1 % 4 * 16 + b2 / 16) % 16 * 16 + b2 % 16 * 4 / 4 = b2 := by omega
    simp [e1, e2]
    omega
  | case3 b1 =>
    have hb1 : b1 < 256 := h b1 (by simp)
    simp only [b64Encode, b64Decode]
    simp only [and_self, if_true]
    rw [b64Index_b64Char _ (by omega), b64Index_b64Char _ (by omega)]
    have e1 : b1 / 4 * 4 + b1 % 4 * 16 / 16 = b1 := by omega
    simp [e1]
    omega
  | case4 => rfl

/-- C1: the lamport count extracted by get_balance's probing logic is the
same whether the raw response is an object exposing a `value` attribute
holding N or a mapping with nested path result.value holding N, for every
non-negative integer N (hence in particular for 0, 1, one billion and the
64-bit boundary), and the full get_balance results of the two shapes
coincide. -/
theorem balance_shape_equivalence (N : ℕ) :
    extractLamports (PyVal.pobj [("value", PyVal.pint N)]) = PyVal.pint N ∧
    extractLamports (PyVal.pdict [("result", PyVal.pdict [("value", PyVal.pint N)])]) =
      PyVal.pint N ∧
    get_balance (Except.ok (PyVal.pobj [("value", PyVal.pint N)])) =
      get_balance (Except.ok (PyVal.pdict [("result", PyVal.pdict [("value", PyVal.pint N)])])) :=
  ⟨rfl, rfl, rfl⟩

/-- C2: none of the four normalizer operations lets an exception escape:
each returns a canonical result or its documented failure value (None, or
the failure record with success = false and an absent signature). -/
theorem normalizers_no_uncaught :
    (∀ rpc, ∃ v, get_balance rpc = Except.ok v) ∧
    (∀ rpc confirm, ∃ r, request_airdrop rpc confirm = Except.ok r ∧
      (r.success = true ∨ (r.success = false ∧ r.signature = PyVal.pnone))) ∧
    (∀ rpc, ∃ v, get_transaction rpc = Except.ok v) ∧
    (∀ kpgen, ∃ v, generate_wallet kpgen = Except.ok v) := by
  refine ⟨fun rpc => ?_, fun rpc confirm => ?_, fun rpc => ?_, fun kpgen => ?_⟩
  · unfold get_balance
    cases get_balance_body rpc with
    | ok s => exact ⟨some s, rfl⟩
    | error e => exact ⟨Option.none, rfl⟩
  · cases rpc with
    | ok resp => exact ⟨_, rfl, Or.inl rfl⟩
    | error e => exact ⟨_, rfl, Or.inr ⟨rfl, rfl⟩⟩
  · unfold get_transaction
    cases get_transaction_body rpc with
    | ok v => exact ⟨v, rfl⟩
    | error e => exact ⟨Option.none, rfl⟩
  · unfold generate_wallet
    cases generate_wallet_body kpgen with
    | ok w => exact ⟨some w, rfl⟩
    | error e => exact ⟨Option.none, rfl⟩

/-- C3 counterexample: a response carrying a negative lamport value is not
rejected as malformed — get_balance converts and returns it. -/
theorem balance_negative_counterexample :
    get_balance (Except.ok (PyVal.pobj [("value", PyVal.pint (-5))])) =
      Except.ok (some (((-5 : Int) : Rat) / 1000000000)) ∧
    get_balance (Except.ok (PyVal.pobj [("value", PyVal.pint (-5))])) ≠
      Except.ok Option.none := by
  refine ⟨rfl, ?_⟩
  rw [show get_balance (Except.ok (PyVal.pobj [("value", PyVal.pint (-5))])) =
      Except.ok (some (((-5 : Int) : Rat) / 1000000000)) from rfl]
  simp

/-- Normal form of get_balance on a successful RPC outcome: the result is
determined by the constructor of the extracted lamport value. -/
theorem get_balance_ok_eq (resp : PyVal) :
    get_balance (Except.ok resp) =
      match extractLamports resp with
      | PyVal.pint n => Except.ok (some ((n : Rat) / 1000000000))
      | PyVal.pbool b => Except.ok (some (((if b then 1 else 0) : Rat) / 1000000000))
      | _ => Except.ok Option.none := by
  cases h : extractLamports resp <;>
    simp [get_balance, get_balance_body, h, isNone, pyDivLamports]

/-- C3 amended: for every response, get_balance signals the malformed
failure (None) exactly when no probe yields a value or the extracted
value is non-numeric (neither an integer nor a boolean) — in particular
for the empty mapping and for a mapping whose result field is the empty
mapping — but an extracted negative integer is not rejected: it is
converted and returned. -/
theorem balance_malformed_amended :
    (∀ resp, get_balance (Except.ok resp) = Except.ok Option.none ↔
      (isNone (extractLamports resp) = true ∨
        ((∀ n : Int, extractLamports resp ≠ PyVal.pint n) ∧
         (∀ b : Bool, extractLamports resp ≠ PyVal.pbool b)))) ∧
    get_balance (Except.ok (PyVal.pdict [])) = Except.ok Option.none ∧
    get_balance (Except.ok (PyVal.pdict [("result", PyVal.pdict [])])) =
      Except.ok Option.none ∧
    (∀ n : Int, get_balance (Except.ok (PyVal.pobj [("value", PyVal.pint n)])) =
      Except.ok (some ((n : Rat) / 1000000000))) := by
  refine ⟨fun resp => ?_, rfl, rfl, fun _ => rfl⟩
  rw [get_balance_ok_eq resp]
  cases h : extractLamports resp with
  | pnone => exact iff_of_true rfl (Or.inl rfl)
  | pint n =>
    exact iff_of_false (fun hc => nomatch hc)
      (fun hr => hr.elim (fun hn => nomatch hn) (fun hp => hp.1 n rfl))
  | pbool b =>
    exact iff_of_false (fun hc => nomatch hc)
      (fun hr => hr.elim (fun hn => nomatch hn) (fun hp => hp.2 b rfl))
  | pstr s =>
    exact iff_of_true rfl (Or.inr ⟨fun _ hc => (nomatch hc), fun _ hc => (nomatch hc)⟩)
  | plist xs =>
    exact iff_of_true rfl (Or.inr ⟨fun _ hc => (nomatch hc), fun _ hc => (nomatch hc)⟩)
  | pdict es =>
    exact iff_of_true rfl (Or.inr ⟨fun _ hc => (nomatch hc), fun _ hc => (nomatch hc)⟩)
  | pobj atr =>
    exact iff_of_true rfl (Or.inr ⟨fun _ hc => (nomatch hc), fun _ hc => (nomatch hc)⟩)

/-- C3 witness: a list-shaped response (whose subscript probe raises and
collapses to an absent value) and a string-valued extraction are both
reported as the malformed failure. -/
theorem balance_malformed_amended_witness :
    get_balance (Except.ok (PyVal.plist [PyVal.pint 3])) = Except.ok Option.none ∧
    get_balance (Except.ok (PyVal.pobj [("value", PyVal.pstr "bad")])) =
      Except.ok Option.none :=
  ⟨(balance_malformed_amended.1 (PyVal.plist [PyVal.pint 3])).mpr (Or.inl rfl),
   (balance_malformed_amended.1 (PyVal.pobj [("value", PyVal.pstr "bad")])).mpr
     (Or.inr ⟨fun _ hc => (nomatch hc), fun _ hc => (nomatch hc)⟩)⟩

/-- Normal form of get_transaction on a successful RPC outcome. -/
theorem get_transaction_ok_eq (resp : PyVal) :
    get_transaction (Except.ok resp) =
      Except.ok (if truthy (resolveEnvelope resp) = false then Option.none
        else some
          ⟨subField (resolveEnvelope resp) "slot",
           if isNone (subField (resolveEnvelope resp) "transaction") then PyVal.pnone
             else txSigs (subField (resolveEnvelope resp) "transaction"),
           if isNone (subField (resolveEnvelope resp) "meta") then PyVal.pnone
             else metaErr (subField (resolveEnvelope resp) "meta"),
           if isNone (subField (resolveEnvelope resp) "meta") then PyVal.pnone
             else metaFee (subField (resolveEnvelope resp) "meta"),
           if isNone (subField (resolveEnvelope resp) "meta") then PyVal.pnone
             else metaPre (subField (resolveEnvelope resp) "meta"),
           if isNone (subField (resolveEnvelope resp) "meta") then PyVal.pnone
             else metaPost (subField (resolveEnvelope resp) "meta")⟩) := by
  by_cases h : truthy (resolveEnvelope resp) = false <;>
    simp [get_transaction, get_transaction_body, h]

/-- C4: get_transaction returns the not-found value (None) exactly when
the resolved envelope is absent or empty (falsy); when the envelope is
present but carries neither a meta nor a transaction sub-structure, it
returns a canonical record whose optional fields other than slot are all
none. -/
theorem tx_notfound_and_allnone :
    (∀ resp, get_transaction (Except.ok resp) = Except.ok Option.none ↔
      truthy (resolveEnvelope resp) = false) ∧
    (∀ resp, truthy (resolveEnvelope resp) = true →
      subField (resolveEnvelope resp) "meta" = PyVal.pnone →
      subField (resolveEnvelope resp) "transaction" = PyVal.pnone →
      get_transaction (Except.ok resp) =
        Except.ok (some ⟨subField (resolveEnvelope resp) "slot", PyVal.pnone,
          PyVal.pnone, PyVal.pnone, PyVal.pnone, PyVal.pnone⟩)) := by
  constructor
  · intro resp
    rw [get_transaction_ok_eq resp]
    by_cases h : truthy (resolveEnvelope resp) = false <;> simp [h]
  · intro resp henv hmeta htx
    rw [get_transaction_ok_eq resp, if_neg (by simp [henv]), hmeta, htx]
    rfl

/-- C4 witness: an empty mapping resolves to an absent envelope and is
reported not found; an envelope carrying only a slot yields a record whose
other fields are all none. -/
theorem tx_notfound_and_allnone_witness :
    get_transaction (Except.ok (PyVal.pdict [])) = Except.ok Option.none ∧
    get_transaction (Except.ok (PyVal.pdict [("result",
        PyVal.pdict [("slot", PyVal.pint 100)])])) =
      Except.ok (some ⟨PyVal.pint 100, PyVal.pnone, PyVal.pnone, PyVal.pnone,
        PyVal.pnone, PyVal.pnone⟩) :=
  ⟨(tx_notfound_and_allnone.1 (PyVal.pdict [])).mpr rfl,
   tx_notfound_and_allnone.2 (PyVal.pdict [("result",
     PyVal.pdict [("slot", PyVal.pint 100)])]) rfl rfl rfl⟩

/-- C7 counterexample: a mapping-shaped meta carrying only the key
pre_balances yields an absent (none) preBalances output, while the
attribute-shaped meta with the same field yields the value — the two
shapes disagree, so the dual-probe strategy is not applied to the mapping
branch. -/
theorem tx_pre_balances_counterexample :
    get_transaction (Except.ok (PyVal.pobj [("value", PyVal.pdict [("meta",
        PyVal.pdict [("pre_balances", PyVal.plist [PyVal.pint 7])])])])) =
      Except.ok (some ⟨PyVal.pnone, PyVal.pnone, PyVal.pnone, PyVal.pnone,
        PyVal.pnone, PyVal.pnone⟩) ∧
    get_transaction (Except.ok (PyVal.pobj [("value", PyVal.pdict [("meta",
        PyVal.pobj [("pre_balances", PyVal.plist [PyVal.pint 7])])])])) =
      Except.ok (some ⟨PyVal.pnone, PyVal.pnone, PyVal.pnone, PyVal.pnone,
        PyVal.plist [PyVal.pint 7], PyVal.pnone⟩) ∧
    PyVal.pnone ≠ PyVal.plist [PyVal.pint 7] :=
  ⟨rfl, rfl, fun h => nomatch h⟩

/-- C7 amended: the balance-field probing is asymmetric — a mapping-shaped
meta is consulted only for the camel-case keys preBalances and
postBalances, so adding a snake-case entry anywhere never changes the
result while a camel-case entry is always honoured; an attribute-shaped
meta is probed for the snake-case attribute first and the camel-case
attribute second, so a truthy snake-case attribute wins over any camel-case
one, and a falsy snake-case attribute falls back to the camel-case one. -/
theorem tx_balance_probe_asymmetry :
    (∀ es v, metaPre (PyVal.pdict (("pre_balances", v) :: es)) =
      metaPre (PyVal.pdict es)) ∧
    (∀ es v, metaPost (PyVal.pdict (("post_balances", v) :: es)) =
      metaPost (PyVal.pdict es)) ∧
    (∀ es v, lookupStr es "preBalances" = some v → metaPre (PyVal.pdict es) = v) ∧
    (∀ es v, lookupStr es "postBalances" = some v → metaPost (PyVal.pdict es) = v) ∧
    (∀ v w, truthy v = true →
      metaPre (PyVal.pobj [("pre_balances", v), ("preBalances", w)]) = v ∧
      metaPost (PyVal.pobj [("post_balances", v), ("postBalances", w)]) = v) ∧
    (∀ v w, truthy v = false →
      metaPre (PyVal.pobj [("pre_balances", v), ("preBalances", w)]) = w ∧
      metaPost (PyVal.pobj [("post_balances", v), ("postBalances", w)]) = w) ∧
    (∀ w, metaPre (PyVal.pobj [("preBalances", w)]) = w ∧
      metaPost (PyVal.pobj [("postBalances", w)]) = w) := by
  refine ⟨fun es v => rfl, fun es v => rfl, fun es v h => ?_, fun es v h => ?_,
    fun v w hv => ?_, fun v w hv => ?_, fun w => ⟨rfl, rfl⟩⟩
  · simp [metaPre, isDict, dictGet, h]
  · simp [metaPost, isDict, dictGet, h]
  · constructor <;>
      simp [metaPre, metaPost, isDict, getattrD, getattrOpt, lookupStr, pyOr, hv]
  · constructor <;>
      simp [metaPre, metaPost, isDict, getattrD, getattrOpt, lookupStr, pyOr, hv]

/-- C7 witness: the asymmetry at concrete inputs — a snake-case dict entry
is ignored even next to other entries, a camel-case dict entry is read, a
truthy snake-case attribute takes precedence over a differing camel-case
attribute, and a falsy snake-case attribute falls back to it. -/
theorem tx_balance_probe_asymmetry_witness :
    metaPre (PyVal.pdict [("pre_balances", PyVal.plist [PyVal.pint 7]),
        ("fee", PyVal.pint 5)]) =
      metaPre (PyVal.pdict [("fee", PyVal.pint 5)]) ∧
    lookupStr [("preBalances", PyVal.plist [PyVal.pint 1])] "preBalances" =
      some (PyVal.plist [PyVal.pint 1]) ∧
    metaPre (PyVal.pdict [("preBalances", PyVal.plist [PyVal.pint 1])]) =
      PyVal.plist [PyVal.pint 1] ∧
    truthy (PyVal.plist [PyVal.pint 1]) = true ∧
    metaPre (PyVal.pobj [("pre_balances", PyVal.plist [PyVal.pint 1]),
        ("preBalances", PyVal.plist [PyVal.pint 2])]) = PyVal.plist [PyVal.pint 1] ∧
    truthy PyVal.pnone = false ∧
    metaPost (PyVal.pobj [("post_balances", PyVal.pnone),
        ("postBalances", PyVal.plist [PyVal.pint 2])]) = PyVal.plist [PyVal.pint 2] :=
  ⟨tx_balance_probe_asymmetry.1 [("fee", PyVal.pint 5)] (PyVal.plist [PyVal.pint 7]),
   rfl,
   tx_balance_probe_asymmetry.2.2.1 [("preBalances", PyVal.plist [PyVal.pint 1])]
     (PyVal.plist [PyVal.pint 1]) rfl,
   rfl,
   (tx_balance_probe_asymmetry.2.2.2.2.1 (PyVal.plist [PyVal.pint 1])
     (PyVal.plist [PyVal.pint 2]) rfl).1,
   rfl,
   (tx_balance_probe_asymmetry.2.2.2.2.2.1 PyVal.pnone
     (PyVal.plist [PyVal.pint 2]) rfl).2⟩

/-- C8 counterexample: a mapping-shaped transaction sub-structure with no
signatures key produces the empty list in the signatures output field, not
none. -/
theorem tx_signatures_default_counterexample :
    get_transaction (Except.ok (PyVal.pobj [("value",
        PyVal.pdict [("transaction", PyVal.pdict [])])])) =
      Except.ok (some ⟨PyVal.pnone, PyVal.plist [], PyVal.pnone, PyVal.pnone,
        PyVal.pnone, PyVal.pnone⟩) ∧
    PyVal.plist [] ≠ PyVal.pnone :=
  ⟨rfl, fun h => nomatch h⟩

/-- C8 amended: a mapping-shaped transaction sub-structure missing the
signatures key yields the empty list as the signatures output, while an
attribute-shaped one missing the attribute yields none; the remaining
output fields of a bare envelope stay none. -/
theorem tx_missing_signatures_amended :
    (∀ es, lookupStr es "signatures" = Option.none →
      txSigs (PyVal.pdict es) = PyVal.plist []) ∧
    (∀ atr, lookupStr atr "signatures" = Option.none →
      txSigs (PyVal.pobj atr) = PyVal.pnone) ∧
    get_transaction (Except.ok (PyVal.pobj [("value",
        PyVal.pdict [("transaction", PyVal.pdict [])])])) =
      Except.ok (some ⟨PyVal.pnone, PyVal.plist [], PyVal.pnone, PyVal.pnone,
        PyVal.pnone, PyVal.pnone⟩) ∧
    get_transaction (Except.ok (PyVal.pobj [("value",
        PyVal.pdict [("transaction", PyVal.pobj [])])])) =
      Except.ok (some ⟨PyVal.pnone, PyVal.pnone, PyVal.pnone, PyVal.pnone,
        PyVal.pnone, PyVal.pnone⟩) := by
  refine ⟨fun es hes => ?_, fun atr hatr => ?_, rfl, rfl⟩
  · simp [txSigs, isDict, dictGet, hes, pyOr, truthy]
  · simp [txSigs, isDict, getattrE, getattrOpt, hatr, Except.bind]

/-- C8 witness: the amended behavior at empty sub-structures. -/
theorem tx_missing_signatures_amended_witness :
    lookupStr [] "signatures" = Option.none ∧
    txSigs (PyVal.pdict []) = PyVal.plist [] ∧
    txSigs (PyVal.pobj []) = PyVal.pnone :=
  ⟨rfl, tx_missing_signatures_amended.1 [] rfl,
   tx_missing_signatures_amended.2.1 [] rfl⟩

/-- C9: when the response exposes no value attribute and, if it is a
mapping, neither a result nor a signature key, the extracted signature is
none and request_airdrop still reports success — absence of a signature is
not an error. -/
theorem airdrop_no_signature (resp : PyVal) (confirm : PyVal → Except PyErr Unit)
    (hattr : hasattr resp "value" = false)
    (hkeys : isDict resp = true →
      dictGet resp "result" = PyVal.pnone ∧ dictGet resp "signature" = PyVal.pnone) :
    extractAirdropSig resp = PyVal.pnone ∧
    request_airdrop (Except.ok resp) confirm =
      Except.ok ⟨true, PyVal.pnone, "Airdrop requested."⟩ := by
  have hsig : extractAirdropSig resp = PyVal.pnone := by
    unfold extractAirdropSig
    rw [hattr]
    by_cases hd : isDict resp = true
    · rcases hkeys hd with ⟨h1, h2⟩
      simp [hd, h1, h2, pyOr, truthy]
    · simp [hd]
  refine ⟨hsig, ?_⟩
  show Except.ok (⟨true, extractAirdropSig resp, "Airdrop requested."⟩ : AirdropResult) =
    Except.ok ⟨true, PyVal.pnone, "Airdrop requested."⟩
  rw [hsig]

/-- C9 witness: a mapping response with unrelated content only. -/
theorem airdrop_no_signature_witness :
    hasattr (PyVal.pdict [("id", PyVal.pint 1)]) "value" = false ∧
    extractAirdropSig (PyVal.pdict [("id", PyVal.pint 1)]) = PyVal.pnone ∧
    request_airdrop (Except.ok (PyVal.pdict [("id", PyVal.pint 1)]))
        (fun _ => Except.error ⟨ErrKind.externalError, "down"⟩) =
      Except.ok ⟨true, PyVal.pnone, "Airdrop requested."⟩ := by
  have h := airdrop_no_signature (PyVal.pdict [("id", PyVal.pint 1)])
    (fun _ => Except.error ⟨ErrKind.externalError, "down"⟩) rfl
    (fun _ => ⟨rfl, rfl⟩)
  exact ⟨rfl, h.1, h.2⟩

/-- C10: for every response whose extracted signature is truthy,
request_airdrop reports success with that signature, no matter what the
confirmation call does — a raised confirmation failure does not change the
returned result. -/
theorem airdrop_confirm_independent (resp : PyVal)
    (confirm₁ confirm₂ : PyVal → Except PyErr Unit)
    (_hsig : truthy (extractAirdropSig resp) = true) :
    request_airdrop (Except.ok resp) confirm₁ =
      Except.ok ⟨true, extractAirdropSig resp, "Airdrop requested."⟩ ∧
    request_airdrop (Except.ok resp) confirm₁ =
      request_airdrop (Except.ok resp) confirm₂ :=
  ⟨rfl, rfl⟩

/-- C10 witness: a response carrying a signature, confirmed by a raising
confirmation call. -/
theorem airdrop_confirm_independent_witness :
    truthy (extractAirdropSig (PyVal.pobj [("value", PyVal.pstr "abc")])) = true ∧
    request_airdrop (Except.ok (PyVal.pobj [("value", PyVal.pstr "abc")]))
        (fun _ => Except.error ⟨ErrKind.externalError, "boom"⟩) =
      Except.ok ⟨true, extractAirdropSig (PyVal.pobj [("value", PyVal.pstr "abc")]),
        "Airdrop requested."⟩ ∧
    request_airdrop (Except.ok (PyVal.pobj [("value", PyVal.pstr "abc")]))
        (fun _ => Except.error ⟨ErrKind.externalError, "boom"⟩) =
      request_airdrop (Except.ok (PyVal.pobj [("value", PyVal.pstr "abc")]))
        (fun _ => Except.ok ()) := by
  have h := airdrop_confirm_independent (PyVal.pobj [("value", PyVal.pstr "abc")])
    (fun _ => Except.error ⟨ErrKind.externalError, "boom"⟩)
    (fun _ => Except.ok ()) rfl
  exact ⟨rfl, h.1, h.2⟩

/-- C5: wallet normalization is deterministic in its input bytes, derives
the address as the base58 encoding of the trailing 32 bytes, and both
secret encodings decode back to exactly the original 64 bytes. -/
theorem wallet_roundtrip (kb : List Nat) (hlen : kb.length = 64)
    (hbytes : ∀ b ∈ kb, b < 256) :
    (∀ kb₂, kb₂ = kb → normalizeWallet kb₂ = normalizeWallet kb) ∧
    ∃ w, normalizeWallet kb = Except.ok w ∧
      w.address = base58Encode (kb.drop 32) ∧
      b64Decode w.secret_b64.data = some kb ∧
      hexDecode w.secret_hex.data = some kb := by
  refine ⟨fun kb₂ he => by rw [he], ?_⟩
  refine ⟨⟨base58Encode (kb.drop 32), String.mk (b64Encode kb), String.mk (hexEncode kb)⟩,
    ?_, rfl, ?_, ?_⟩
  · unfold normalizeWallet
    rw [if_pos hlen]
  · exact b64Decode_b64Encode kb hbytes
  · exact hexDecode_hexEncode kb hbytes

/-- C5 witness: the round trip at a concrete 64-byte buffer. -/
theorem wallet_roundtrip_witness :
    (List.range 64).length = 64 ∧ (∀ b ∈ List.range 64, b < 256) ∧
    ∃ w, normalizeWallet (List.range 64) = Except.ok w ∧
      w.address = base58Encode ((List.range 64).drop 32) ∧
      b64Decode w.secret_b64.data = some (List.range 64) ∧
      hexDecode w.secret_hex.data = some (List.range 64) :=
  ⟨by decide, by decide, (wallet_roundtrip (List.range 64) (by decide) (by decide)).2⟩

/-- C6: every buffer whose length is not exactly 64 bytes is rejected with
the invalid-length failure instead of producing a wallet record. -/
theorem wallet_invalid_length (kb : List Nat) (hlen : kb.length ≠ 64) :
    normalizeWallet kb = Except.error WalletErr.invalidLength := by
  unfold normalizeWallet
  rw [if_neg hlen]

/-- C6 witness: the empty buffer and a 32-byte buffer are rejected. -/
theorem wallet_invalid_length_witness :
    ([] : List Nat).length ≠ 64 ∧ (List.range 32).length ≠ 64 ∧
    normalizeWallet [] = Except.error WalletErr.invalidLength ∧
    normalizeWallet (List.range 32) = Except.error WalletErr.invalidLength :=
  ⟨by decide, by decide, wallet_invalid_length [] (by decide),
   wallet_invalid_length (List.range 32) (by decide)⟩
